import Mathlib

/-!
Shallow embedding of the QuickPath URL-shortener core
(`database_manager.py`, with the error surfacing of `main.py` and the
table shape of `database.py`), together with theorems settling the
frozen claims about its specification.

External effects are passed in explicitly: randomness as a stream of
draws, the artifact store as a `QrEnv` record of outcomes, concurrent
commits by other tasks as a store transformation applied at the await
point between the advisory existence check and the insert, and the
unbounded `while True` generation loop as a fuel-indexed function whose
`none` result means the loop is still running after that many
candidates.
-/

namespace QuickPath

/-- Python exception values that cross the DatabaseManager boundary:
either a FastAPI HTTPException carrying a status code and detail
string, or any other uncaught exception rendered by its message. -/
inductive PyError where
  | httpException (status : Nat) (detail : String)
  | raised (msg : String)
deriving Repr, DecidableEq

/-- A row of the urls table from database.py: long_url, short_url
(unique), qr_code. -/
structure UrlRecord where
  long_url : String
  short_url : String
  qr_code : String
deriving Repr, DecidableEq

/-- The relational store: the urls table as a list of rows.  The
uniqueness constraint on short_url is enforced at insert time. -/
abbrev Store := List UrlRecord

/-- database.fetch_one of a select filtered on short_url equality. -/
def fetch_one (store : Store) (short_url : String) : Option UrlRecord :=
  store.find? (fun r => r.short_url == short_url)

def ascii_lowercase : List Char :=
  ['a', 'b', 'c', 'd', 'e', 'f', 'g', 'h', 'i', 'j', 'k', 'l', 'm',
   'n', 'o', 'p', 'q', 'r', 's', 't', 'u', 'v', 'w', 'x', 'y', 'z']

def ascii_digits : List Char :=
  ['0', '1', '2', '3', '4', '5', '6', '7', '8', '9']

/-- random.choices draws one element uniformly: modelled as indexing
the alphabet by an arbitrary random draw taken modulo its size. -/
def choiceChar (alphabet : List Char) (r : Nat) : Char :=
  alphabet.getD (r % alphabet.length) 'a'

/-- DatabaseManager.generate_short_url: four random lowercase letters
followed by two random digits, the randomness supplied as a stream of
draws. -/
def generate_short_url (rng : Nat → Nat) : String :=
  String.mk [choiceChar ascii_lowercase (rng 0), choiceChar ascii_lowercase (rng 1),
             choiceChar ascii_lowercase (rng 2), choiceChar ascii_lowercase (rng 3),
             choiceChar ascii_digits (rng 4), choiceChar ascii_digits (rng 5)]

/-- Successive calls to generate_short_url inside add_url, call i
consuming draws 6*i .. 6*i+5 of the stream. -/
def genStream (rng : Nat → Nat) (i : Nat) : String :=
  generate_short_url (fun j => rng (6 * i + j))

/-- The alias shape stated by the spec: four lowercase ASCII letters
followed by two ASCII digits. -/
def isShortShape (s : String) : Bool :=
  (s.length == 6) && ((s.data.take 4).all Char.isLower)
    && ((s.data.drop 4).all Char.isDigit)

/-- The placeholder artifact reference returned on any QR failure,
embedding the alias. -/
def placeholder (short_id : String) : String :=
  "https://via.placeholder.com/150?text=" ++ short_id

/-- Outcomes of the external world for one QR render and upload:
whether encoding and buffering succeed, whether the storage upload call
raises, whether the upload response is recognized as successful (truthy
with a path), and the public URL the storage service reports for a file
name. -/
structure QrEnv where
  encodeOk : Bool
  uploadRaises : Bool
  uploadHasPath : Bool
  publicUrl : String → String

/-- DatabaseManager.upload_to_supabase: on an exception from the upload
call, or on an upload response not carrying a path, return the
placeholder; otherwise return the public URL of alias.png. -/
def upload_to_supabase (env : QrEnv) (short_id : String) : String :=
  let file_name := short_id ++ ".png"
  if env.uploadRaises then placeholder short_id
  else if env.uploadHasPath then env.publicUrl file_name
  else placeholder short_id

set_option linter.unusedVariables false in
/-- DatabaseManager.generate_qr: encode the long URL and upload;
any exception during encoding yields the placeholder.  The long URL is
only drawn into the QR image, which lives outside the model. -/
def generate_qr (env : QrEnv) (long_url short_id : String) : String :=
  if env.encodeOk then upload_to_supabase env short_id
  else placeholder short_id

/-- Python str.startswith, with its character-prefix semantics. -/
def strStartsWith (s pre : String) : Bool :=
  pre.data.isPrefixOf s.data

/-- Lines 81-82 of add_url: the URL counts as already carrying a scheme
exactly when it starts with http:// or https://. -/
def hasScheme (u : String) : Bool :=
  strStartsWith u "http://" || strStartsWith u "https://"

/-- Lines 81-82 of add_url: prefix https:// unless the URL already
starts with http:// or https://. -/
def normalizeUrl (u : String) : String :=
  if hasScheme u then u else "https://" ++ u

/-- Message of the driver exception raised when the insert violates the
unique constraint on short_url (sqlite wording, per database.py). -/
def uniqueViolationMsg : String := "UNIQUE constraint failed: urls.short_url"

/-- The while True generation loop of add_url: examine candidate i,
keep it when no row holds it, otherwise generate the next candidate.
fuel bounds how many candidates are examined; none means the loop is
still running after that many attempts (the source loop has no cap and
no failure outcome). -/
def genLoop (gen : Nat → String) (store : Store) : Nat → Nat → Option String
  | 0, _ => none
  | fuel + 1, i =>
    if (fetch_one store (gen i)).isNone then some (gen i)
    else genLoop gen store fuel (i + 1)

/-- Lines 99-110 of add_url: render the QR artifact, then run the
insert.  The insert succeeds only when short_url is free in the store
seen at insert time; a unique-constraint violation surfaces as an
uncaught driver exception, since no try/except surrounds
database.execute. -/
def finishInsert (env : QrEnv) (storeAtInsert : Store) (lu su : String) :
    Except PyError String × Store :=
  let qr := generate_qr env lu su
  match fetch_one storeAtInsert su with
  | some _ => (.error (.raised uniqueViolationMsg), storeAtInsert)
  | none => (.ok su, storeAtInsert ++ [⟨lu, su, qr⟩])

/-- The generated-alias arm of add_url: run the loop against the store
seen at check time, then insert. -/
def addGenerated (gen : Nat → String) (env : QrEnv) (concurrent : Store → Store)
    (store : Store) (lu : String) (fuel : Nat) :
    Option (Except PyError String × Store) :=
  match genLoop gen store fuel 0 with
  | none => none
  | some su => some (finishInsert env (concurrent store) lu su)

/-- DatabaseManager.add_url.  concurrent is what other tasks commit to
the store at the await points between the advisory existence check and
the insert: the advisory reads see store, the insert sees
concurrent store.  A truthy custom_short (a non-empty string) skips the
generation loop entirely; none or an empty string falls through to
generation.  The overall result is none when the generation loop is
still running after fuel candidates. -/
def add_url (gen : Nat → String) (env : QrEnv) (concurrent : Store → Store)
    (store : Store) (long_url : String) (custom_short : Option String)
    (fuel : Nat) : Option (Except PyError String × Store) :=
  match custom_short with
  | some c =>
    if c = "" then addGenerated gen env concurrent store (normalizeUrl long_url) fuel
    else
      match fetch_one store c with
      | some _ =>
        some (.error (.httpException 400 "Short URL already exists, please choose another one"), store)
      | none => some (finishInsert env (concurrent store) (normalizeUrl long_url) c)
  | none => addGenerated gen env concurrent store (normalizeUrl long_url) fuel

/-- Python str(e) for the exceptions occurring inside get_url. -/
def pyStr : PyError → String
  | .httpException status detail => toString status ++ ": " ++ detail
  | .raised msg => msg

/-- DatabaseManager.get_url with its try/except: any exception raised
in the try block, including the 404 HTTPException raised for an absent
alias, is caught by except Exception and re-raised as a 500.  dbOk says
whether the store connection works for this call. -/
def get_url (dbOk : Bool) (store : Store) (short_url : String) :
    Except PyError UrlRecord :=
  let attempt : Except PyError UrlRecord :=
    if dbOk then
      match fetch_one store short_url with
      | some r => .ok r
      | none => .error (.httpException 404 "Short URL not found")
    else .error (.raised "connection is closed")
  match attempt with
  | .ok r => .ok r
  | .error e => .error (.httpException 500 ("Database error: " ++ pyStr e))

/-- main.shorten_url error surfacing: an HTTPException passes through
with its status and detail, and any other exception becomes the one
generic 500 response. -/
def shorten_error_response : PyError → Nat × String
  | .httpException status detail => (status, detail)
  | .raised _ => (500, "Failed to shorten URL. Please try again.")

/-- The caller-visible outcome of add_url, the store projected away. -/
def resultAlias (r : Option (Except PyError String × Store)) :
    Option (Except PyError String) :=
  r.map Prod.fst

/-- A fixed stream of random draws, used for concrete evaluations. -/
def rng0 : Nat → Nat := fun _ => 0

/-- A concurrent task that commits the alias sale42 between the
advisory check and the insert, used for concrete evaluations. -/
def raceWriter : Store → Store :=
  fun s => s ++ [⟨"https://first.com", "sale42", "qq"⟩]

/-- An environment where encoding and upload succeed. -/
def env0 : QrEnv := ⟨true, false, true, fun f => "https://pub.supabase.co/" ++ f⟩

/-- An environment where the storage upload raises. -/
def envFail : QrEnv := ⟨true, true, true, fun f => "https://pub.supabase.co/" ++ f⟩

/-! ### Helper lemmas -/

lemma isLower_choice (r : Nat) : (choiceChar ascii_lowercase r).isLower = true := by
  have hlt : r % ascii_lowercase.length < 26 := Nat.mod_lt _ (by decide)
  have hall : ∀ i < 26, (ascii_lowercase.getD i 'a').isLower = true := by decide
  exact hall _ hlt

lemma isDigit_choice (r : Nat) : (choiceChar ascii_digits r).isDigit = true := by
  have hlt : r % ascii_digits.length < 10 := Nat.mod_lt _ (by decide)
  have hall : ∀ i < 10, (ascii_digits.getD i 'a').isDigit = true := by decide
  exact hall _ hlt

lemma generate_short_url_shape (rng : Nat → Nat) :
    isShortShape (generate_short_url rng) = true := by
  simp [isShortShape, generate_short_url, isLower_choice, isDigit_choice,
    List.take, List.drop, String.length]

lemma genLoop_eq_gen (gen : Nat → String) (store : Store) :
    ∀ fuel i s, genLoop gen store fuel i = some s → ∃ j, s = gen j := by
  intro fuel
  induction fuel with
  | zero => intro i s h; exact absurd h (by simp [genLoop])
  | succ n ih =>
    intro i s h
    simp only [genLoop] at h
    split at h
    · exact ⟨i, (Option.some.inj h).symm⟩
    · exact ih (i + 1) s h

lemma finishInsert_ok {env : QrEnv} {storeAtInsert : Store} {lu su a : String}
    {st : Store} (h : finishInsert env storeAtInsert lu su = (.ok a, st)) :
    a = su ∧ fetch_one storeAtInsert su = none ∧
      st = storeAtInsert ++ [⟨lu, su, generate_qr env lu su⟩] := by
  unfold finishInsert at h
  split at h
  · exact absurd h (by simp)
  · rename_i hfree
    obtain ⟨h1, h2⟩ := Prod.mk.injEq .. ▸ h
    exact ⟨(Except.ok.inj h1).symm, hfree, h2.symm⟩

lemma addGenerated_ok {gen : Nat → String} {env : QrEnv}
    {concurrent : Store → Store} {store : Store} {lu : String} {fuel : Nat}
    {a : String} {st : Store}
    (h : addGenerated gen env concurrent store lu fuel = some (.ok a, st)) :
    (∃ j, a = gen j) ∧ fetch_one (concurrent store) a = none ∧
      st = concurrent store ++ [⟨lu, a, generate_qr env lu a⟩] := by
  unfold addGenerated at h
  split at h
  · exact absurd h (by simp)
  · rename_i su hloop
    obtain ⟨ha, hfree, hst⟩ := finishInsert_ok (Option.some.inj h)
    subst ha
    exact ⟨genLoop_eq_gen _ _ _ _ _ hloop, hfree, hst⟩

lemma add_url_ok {gen : Nat → String} {env : QrEnv}
    {concurrent : Store → Store} {store : Store} {long_url : String}
    {custom : Option String} {fuel : Nat} {a : String} {st : Store}
    (h : add_url gen env concurrent store long_url custom fuel =
      some (.ok a, st)) :
    fetch_one (concurrent store) a = none ∧
      st = concurrent store ++
        [⟨normalizeUrl long_url, a, generate_qr env (normalizeUrl long_url) a⟩] := by
  unfold add_url at h
  split at h
  · split at h
    · obtain ⟨_, hfree, hst⟩ := addGenerated_ok h
      exact ⟨hfree, hst⟩
    · split at h
      · exact absurd (Option.some.inj h) (by simp)
      · obtain ⟨ha, hfree, hst⟩ := finishInsert_ok (Option.some.inj h)
        subst ha
        exact ⟨hfree, hst⟩
  · obtain ⟨_, hfree, hst⟩ := addGenerated_ok h
    exact ⟨hfree, hst⟩

lemma fetch_one_cons (r : UrlRecord) (t : Store) (a : String) :
    fetch_one (r :: t) a =
      if r.short_url == a then some r else fetch_one t a := by
  cases h : r.short_url == a <;> simp [fetch_one, List.find?, h]

lemma fetch_one_append {s₁ : Store} (s₂ : Store) {a : String}
    (h : fetch_one s₁ a = none) :
    fetch_one (s₁ ++ s₂) a = fetch_one s₂ a := by
  induction s₁ with
  | nil => rfl
  | cons r t ih =>
    rw [fetch_one_cons] at h
    rw [List.cons_append, fetch_one_cons]
    split at h
    · exact absurd h (by simp)
    · rename_i hne
      rw [if_neg hne]
      exact ih h

lemma fetch_one_last {cs : Store} {rec : UrlRecord} {a : String}
    (h : fetch_one cs a = none) (ha : rec.short_url = a) :
    fetch_one (cs ++ [rec]) a = some rec := by
  rw [fetch_one_append [rec] h]
  unfold fetch_one List.find?
  rw [ha]
  simp

lemma strStartsWith_append (pre u : String) :
    strStartsWith (pre ++ u) pre = true := by
  unfold strStartsWith
  rw [show (pre ++ u).data = pre.data ++ u.data from rfl,
    List.isPrefixOf_iff_prefix]
  exact pre.data.prefix_append u.data

lemma normalizeUrl_hasScheme (u : String) :
    hasScheme (normalizeUrl u) = true := by
  unfold normalizeUrl
  split
  · assumption
  · unfold hasScheme
    rw [strStartsWith_append "https://" u]
    simp

lemma normalizeUrl_ne_empty (u : String) : normalizeUrl u ≠ "" := by
  unfold normalizeUrl
  split
  · rename_i hs
    intro hu
    rw [hu] at hs
    exact absurd hs (by decide)
  · intro hu
    have hlen := congrArg String.length hu
    rw [String.length_append] at hlen
    have h8 : ("https://" : String).length = 8 := rfl
    have h0 : ("" : String).length = 0 := rfl
    rw [h8, h0] at hlen
    omega

lemma genLoop_all_taken {gen : Nat → String} {store : Store}
    (h : ∀ i, (fetch_one store (gen i)).isSome = true) :
    ∀ fuel i, genLoop gen store fuel i = none := by
  intro fuel
  induction fuel with
  | zero => intro i; rfl
  | succ n ih =>
    intro i
    simp only [genLoop]
    rw [if_neg]
    · exact ih (i + 1)
    · intro hcond
      have hs := h i
      rw [Option.isNone_iff_eq_none] at hcond
      rw [hcond] at hs
      exact absurd hs (by simp)

lemma append_ne_empty_left {s : String} (t : String) (hs : s.length ≠ 0) :
    s ++ t ≠ "" := by
  intro h
  have hlen := congrArg String.length h
  rw [String.length_append] at hlen
  have h0 : ("" : String).length = 0 := rfl
  rw [h0] at hlen
  omega

lemma placeholder_ne_empty (su : String) : placeholder su ≠ "" :=
  append_ne_empty_left su (by decide)

lemma generate_qr_ne_empty {env : QrEnv} (h : ∀ f, env.publicUrl f ≠ "")
    (lu su : String) : generate_qr env lu su ≠ "" := by
  unfold generate_qr upload_to_supabase
  split
  · split
    · exact placeholder_ne_empty su
    · split
      · exact h (su ++ ".png")
      · exact placeholder_ne_empty su
  · exact placeholder_ne_empty su

lemma finishInsert_fst (env₁ env₂ : QrEnv) (storeAtInsert : Store)
    (lu su : String) :
    (finishInsert env₁ storeAtInsert lu su).1 =
      (finishInsert env₂ storeAtInsert lu su).1 := by
  simp only [finishInsert]
  cases h : fetch_one storeAtInsert su <;> simp [h]

lemma resultAlias_env_eq (gen : Nat → String) (concurrent : Store → Store)
    (store : Store) (long_url : String) (custom : Option String) (fuel : Nat)
    (env₁ env₂ : QrEnv) :
    resultAlias (add_url gen env₁ concurrent store long_url custom fuel) =
      resultAlias (add_url gen env₂ concurrent store long_url custom fuel) := by
  have hgen : resultAlias (addGenerated gen env₁ concurrent store
        (normalizeUrl long_url) fuel) =
      resultAlias (addGenerated gen env₂ concurrent store
        (normalizeUrl long_url) fuel) := by
    unfold addGenerated
    cases hloop : genLoop gen store fuel 0
    · rfl
    · rename_i su
      simp only [resultAlias, Option.map]
      rw [finishInsert_fst env₁ env₂]
  cases custom with
  | none => exact hgen
  | some c =>
    by_cases hc : c = ""
    · simp only [add_url]
      rw [if_pos hc, if_pos hc]
      exact hgen
    · simp only [add_url]
      rw [if_neg hc, if_neg hc]
      cases hf : fetch_one store c
      · simp only [resultAlias, Option.map]
        rw [finishInsert_fst env₁ env₂]
      · rfl

/-! ### Claims -/

/-- Claim C8: every alias produced by the generator is a 6-character
string of 4 lowercase ASCII letters followed by 2 ASCII digits, and so
is every alias returned by a successful create call given no custom
alias. -/
theorem claim_C8 :
    (∀ rng : Nat → Nat, isShortShape (generate_short_url rng) = true) ∧
    (∀ (rng : Nat → Nat) (env : QrEnv) (concurrent : Store → Store)
        (store : Store) (long_url : String) (fuel : Nat)
        (a : String) (st : Store),
      add_url (genStream rng) env concurrent store long_url none fuel =
          some (.ok a, st) →
      isShortShape a = true) := by
  refine ⟨generate_short_url_shape, ?_⟩
  intro rng env concurrent store long_url fuel a st h
  have h' : addGenerated (genStream rng) env concurrent store
      (normalizeUrl long_url) fuel = some (.ok a, st) := h
  obtain ⟨⟨j, hj⟩, -, -⟩ := addGenerated_ok h'
  subst hj
  simp only [genStream]
  exact generate_short_url_shape _

/-- Claim C8 witness: a concrete successful create with no custom alias
returns a shape-conforming alias. -/
theorem claim_C8_witness : isShortShape "aaaa00" = true :=
  claim_C8.2 rng0 env0 id [] "x" 1 "aaaa00"
    [⟨"https://x", "aaaa00", "https://pub.supabase.co/aaaa00.png"⟩] rfl

/-- Claim C9: create normalizes longUrl by prefixing https:// exactly
when the URL carries no recognized scheme (http:// or https://), stores
it unchanged when a recognized scheme is present, and in particular a
successful create of example.com persists longUrl
https://example.com. -/
theorem claim_C9 :
    (∀ u, hasScheme u = true → normalizeUrl u = u) ∧
    (∀ u, hasScheme u = false → normalizeUrl u = "https://" ++ u) ∧
    (∀ (gen : Nat → String) (env : QrEnv) (concurrent : Store → Store)
        (store : Store) (custom : Option String) (fuel : Nat)
        (a : String) (st : Store),
      add_url gen env concurrent store "example.com" custom fuel =
          some (.ok a, st) →
      fetch_one st a = some ⟨"https://example.com", a,
        generate_qr env "https://example.com" a⟩) := by
  refine ⟨?_, ?_, ?_⟩
  · intro u hu
    unfold normalizeUrl
    rw [if_pos hu]
  · intro u hu
    unfold normalizeUrl
    rw [if_neg (by simp [hu])]
  · intro gen env concurrent store custom fuel a st h
    obtain ⟨hfree, hst⟩ := add_url_ok h
    have hn : normalizeUrl "example.com" = "https://example.com" := rfl
    rw [hn] at hst
    rw [hst]
    exact fetch_one_last hfree rfl

/-- Claim C9 witness: the normalization branches and the persisted
record of a concrete create of example.com. -/
theorem claim_C9_witness :
    fetch_one
        [⟨"https://example.com", "aaaa00", "https://pub.supabase.co/aaaa00.png"⟩]
        "aaaa00" =
      some ⟨"https://example.com", "aaaa00",
        "https://pub.supabase.co/aaaa00.png"⟩ :=
  claim_C9.2.2 (genStream rng0) env0 id [] none 1 "aaaa00"
    [⟨"https://example.com", "aaaa00", "https://pub.supabase.co/aaaa00.png"⟩] rfl

/-- Claim C4 counterexample: create with an empty longUrl is not
rejected; it succeeds and persists a record (with long_url https://),
contradicting the claim that create rejects empty input with a
validation error and never creates a record for it. -/
theorem claim_C4_counterexample :
    add_url (genStream rng0) env0 id [] "" none 1 =
      some (.ok "aaaa00",
        [⟨"https://", "aaaa00", "https://pub.supabase.co/aaaa00.png"⟩]) := rfl

/-- Claim C4 amended: create performs no emptiness validation (an empty
longUrl is accepted and a record is created for it), but every record a
successful create persists still has a non-empty long_url carrying an
explicit http:// or https:// scheme, because normalization prefixes
https:// whenever those schemes are absent. -/
theorem claim_C4 :
    ∀ (gen : Nat → String) (env : QrEnv) (concurrent : Store → Store)
        (store : Store) (long_url : String) (custom : Option String)
        (fuel : Nat) (a : String) (st : Store),
      add_url gen env concurrent store long_url custom fuel =
          some (.ok a, st) →
      ∃ rec : UrlRecord, st = concurrent store ++ [rec] ∧
        rec.long_url ≠ "" ∧
        (strStartsWith rec.long_url "http://" = true ∨
          strStartsWith rec.long_url "https://" = true) := by
  intro gen env concurrent store long_url custom fuel a st h
  obtain ⟨-, hst⟩ := add_url_ok h
  refine ⟨_, hst, normalizeUrl_ne_empty long_url, ?_⟩
  have := normalizeUrl_hasScheme long_url
  unfold hasScheme at this
  exact Bool.or_eq_true_iff.mp this

/-- Claim C4 amended witness: the record persisted by a concrete
successful create (of an empty longUrl, even) is non-empty and carries
a scheme. -/
theorem claim_C4_witness :
    ∃ rec : UrlRecord,
      [⟨"https://", "aaaa00", "https://pub.supabase.co/aaaa00.png"⟩] =
          id ([] : Store) ++ [rec] ∧
        rec.long_url ≠ "" ∧
        (strStartsWith rec.long_url "http://" = true ∨
          strStartsWith rec.long_url "https://" = true) :=
  claim_C4 (genStream rng0) env0 id [] "" none 1 "aaaa00"
    [⟨"https://", "aaaa00", "https://pub.supabase.co/aaaa00.png"⟩] rfl

/-- Claim C10: a supplied custom alias undergoes no shape, length or
character-set validation: any non-empty string free in the store is
used verbatim as the alias, and an empty-string custom alias behaves
exactly as an absent one, falling through to random generation. -/
theorem claim_C10 :
    (∀ (gen : Nat → String) (env : QrEnv) (concurrent : Store → Store)
        (store : Store) (long_url : String) (fuel : Nat) (c : String),
      c ≠ "" → fetch_one store c = none →
      fetch_one (concurrent store) c = none →
      add_url gen env concurrent store long_url (some c) fuel =
        some (.ok c, concurrent store ++
          [⟨normalizeUrl long_url, c,
            generate_qr env (normalizeUrl long_url) c⟩])) ∧
    (∀ (gen : Nat → String) (env : QrEnv) (concurrent : Store → Store)
        (store : Store) (long_url : String) (fuel : Nat),
      add_url gen env concurrent store long_url (some "") fuel =
        add_url gen env concurrent store long_url none fuel) := by
  constructor
  · intro gen env concurrent store long_url fuel c hc hfree0 hfree1
    simp only [add_url]
    rw [if_neg hc, hfree0]
    unfold finishInsert
    rw [hfree1]
  · intro gen env concurrent store long_url fuel
    rfl

/-- Claim C10 witness: a custom alias violating the generated shape
(spaces, punctuation, wrong length) is accepted verbatim. -/
theorem claim_C10_witness :
    add_url (genStream rng0) env0 id [] "x" (some "My Alias!!") 0 =
      some (.ok "My Alias!!",
        [⟨"https://x", "My Alias!!",
          "https://pub.supabase.co/My Alias!!.png"⟩]) :=
  claim_C10.1 (genStream rng0) env0 id [] "x" 0 "My Alias!!"
    (by decide) rfl rfl

/-- Claim C7: create with a custom alias that already names a record
fails with the 400 alias-conflict error and leaves the store unchanged;
with a free custom alias the alias is used verbatim and no generation
loop runs (the outcome is the same even with a fuel budget of zero
loop iterations). -/
theorem claim_C7 :
    (∀ (gen : Nat → String) (env : QrEnv) (concurrent : Store → Store)
        (store : Store) (long_url : String) (fuel : Nat) (c : String)
        (r : UrlRecord),
      c ≠ "" → fetch_one store c = some r →
      add_url gen env concurrent store long_url (some c) fuel =
        some (.error (.httpException 400
          "Short URL already exists, please choose another one"), store)) ∧
    (∀ (gen : Nat → String) (env : QrEnv) (concurrent : Store → Store)
        (store : Store) (long_url : String) (c : String),
      c ≠ "" → fetch_one store c = none →
      fetch_one (concurrent store) c = none →
      resultAlias (add_url gen env concurrent store long_url (some c) 0) =
        some (.ok c)) := by
  constructor
  · intro gen env concurrent store long_url fuel c r hc htaken
    simp only [add_url]
    rw [if_neg hc, htaken]
  · intro gen env concurrent store long_url c hc hfree0 hfree1
    simp only [add_url]
    rw [if_neg hc, hfree0]
    unfold finishInsert
    rw [hfree1]
    rfl

/-- Claim C7 witness: creating with the taken custom alias promo1
fails with the 400 conflict error and does not alter the store. -/
theorem claim_C7_witness :
    add_url (genStream rng0) env0 id [⟨"https://x.com", "promo1", "q"⟩]
        "https://y.com" (some "promo1") 50 =
      some (.error (.httpException 400
        "Short URL already exists, please choose another one"),
        [⟨"https://x.com", "promo1", "q"⟩]) :=
  claim_C7.1 (genStream rng0) env0 id [⟨"https://x.com", "promo1", "q"⟩]
    "https://y.com" 50 "promo1" ⟨"https://x.com", "promo1", "q"⟩
    (by decide) rfl

/-- Claim C6 counterexample: against a store where every generated
candidate is reported taken, create with no custom alias has produced
no outcome after 51 generation attempts, exceeding the claimed cap of
50 without surfacing any alias-space-exhausted failure: the source
loop is while True with no cap and no such outcome. -/
theorem claim_C6_counterexample :
    add_url (genStream rng0) env0 id [⟨"https://a.com", "aaaa00", "q"⟩]
      "https://b.com" none 51 = none := rfl

/-- Claim C6 amended: the generation loop of create is unbounded: the
code has no retry cap and no alias-space-exhausted outcome, so under a
pathological store where every candidate is reported taken, create
yields no result after any number of generation attempts. -/
theorem claim_C6 :
    ∀ (gen : Nat → String) (env : QrEnv) (concurrent : Store → Store)
        (store : Store) (long_url : String) (fuel : Nat),
      (∀ i, (fetch_one store (gen i)).isSome = true) →
      add_url gen env concurrent store long_url none fuel = none := by
  intro gen env concurrent store long_url fuel h
  show addGenerated gen env concurrent store (normalizeUrl long_url) fuel = none
  unfold addGenerated
  rw [genLoop_all_taken h fuel 0]

/-- Claim C6 amended witness: with every candidate taken, even 1000
attempts produce no outcome. -/
theorem claim_C6_witness :
    add_url (genStream rng0) env0 id [⟨"https://a.com", "aaaa00", "q"⟩]
      "https://b.com" none 1000 = none :=
  claim_C6 (genStream rng0) env0 id [⟨"https://a.com", "aaaa00", "q"⟩]
    "https://b.com" 1000 (fun _ => rfl)

/-- Claim C1 counterexample: when a concurrent create commits the same
alias between the advisory check and the insert, create propagates the
driver's unique-constraint exception, which the HTTP layer surfaces as
the same generic 500 response as any other uncaught failure (such as a
lost connection) — not a distinct alias-race outcome. -/
theorem claim_C1_counterexample :
    add_url (genStream rng0) env0
        (fun s => s ++ [⟨"https://other.com", "promo1", "q2"⟩]) []
        "https://mine.com" (some "promo1") 0 =
      some (.error (.raised uniqueViolationMsg),
        [⟨"https://other.com", "promo1", "q2"⟩]) ∧
    shorten_error_response (.raised uniqueViolationMsg) =
      (500, "Failed to shorten URL. Please try again.") ∧
    shorten_error_response (.raised "connection is closed") =
      (500, "Failed to shorten URL. Please try again.") :=
  ⟨rfl, rfl, rfl⟩

/-- Claim C1 amended: when the final insert is rejected by the
uniqueness constraint because a concurrent create committed the alias
after the advisory check, create fails by propagating the driver
exception, surfaced by the HTTP layer as the generic 500 response and
so indistinguishable from other uncaught failures; no duplicate or
corrupted record is produced — the store is left exactly as the
concurrent writer left it.  Both the custom-alias arm and the
generated-alias arm behave this way. -/
theorem claim_C1 :
    (∀ (gen : Nat → String) (env : QrEnv) (concurrent : Store → Store)
        (store : Store) (long_url : String) (fuel : Nat) (c : String)
        (r : UrlRecord),
      c ≠ "" → fetch_one store c = none →
      fetch_one (concurrent store) c = some r →
      add_url gen env concurrent store long_url (some c) fuel =
          some (.error (.raised uniqueViolationMsg), concurrent store) ∧
        shorten_error_response (.raised uniqueViolationMsg) =
          (500, "Failed to shorten URL. Please try again.")) ∧
    (∀ (gen : Nat → String) (env : QrEnv) (concurrent : Store → Store)
        (store : Store) (long_url : String) (fuel : Nat) (a : String)
        (r : UrlRecord),
      genLoop gen store fuel 0 = some a →
      fetch_one (concurrent store) a = some r →
      add_url gen env concurrent store long_url none fuel =
        some (.error (.raised uniqueViolationMsg), concurrent store)) := by
  constructor
  · intro gen env concurrent store long_url fuel c r hc hfree htaken
    refine ⟨?_, rfl⟩
    simp only [add_url]
    rw [if_neg hc, hfree]
    unfold finishInsert
    rw [htaken]
  · intro gen env concurrent store long_url fuel a r hloop htaken
    show addGenerated gen env concurrent store (normalizeUrl long_url) fuel = _
    unfold addGenerated
    rw [hloop]
    show some (finishInsert env (concurrent store) (normalizeUrl long_url) a) = _
    simp only [finishInsert]
    rw [htaken]

/-- Claim C1 amended witness: a concrete lost race on a custom alias. -/
theorem claim_C1_witness :
    add_url (genStream rng0) envFail raceWriter []
        "https://second.com" (some "sale42") 7 =
        some (.error (.raised uniqueViolationMsg),
          [⟨"https://first.com", "sale42", "qq"⟩]) ∧
      shorten_error_response (.raised uniqueViolationMsg) =
        (500, "Failed to shorten URL. Please try again.") :=
  claim_C1.1 (genStream rng0) envFail raceWriter []
    "https://second.com" 7 "sale42" ⟨"https://first.com", "sale42", "qq"⟩
    (by decide) rfl rfl

/-- Claim C3, the code slip evaluated: resolving an absent alias raises
the 404 inside the try block of get_url, but the blanket except clause
catches it and re-raises the same 500 service-unavailable shape used
for a store connection failure, so an absent alias is not surfaced as
a distinct not-found outcome. -/
theorem claim_C3_bug :
    get_url true [] "zzzz99" =
      .error (.httpException 500 "Database error: 404: Short URL not found") ∧
    get_url false [] "zzzz99" =
      .error (.httpException 500 "Database error: connection is closed") :=
  ⟨rfl, rfl⟩

/-- Claim C2: after a successful create, resolving the returned alias
yields a record whose long_url is the normalized input and whose
artifact reference is non-empty, and the record entered the store
already carrying that reference (rendering happens before
persistence), provided the external storage service reports non-empty
public URLs. -/
theorem claim_C2 :
    ∀ (gen : Nat → String) (env : QrEnv) (concurrent : Store → Store)
        (store : Store) (long_url : String) (custom : Option String)
        (fuel : Nat) (a : String) (st : Store),
      (∀ f, env.publicUrl f ≠ "") →
      add_url gen env concurrent store long_url custom fuel =
          some (.ok a, st) →
      ∃ qr, st = concurrent store ++ [⟨normalizeUrl long_url, a, qr⟩] ∧
        qr ≠ "" ∧
        get_url true st a = .ok ⟨normalizeUrl long_url, a, qr⟩ := by
  intro gen env concurrent store long_url custom fuel a st henv h
  obtain ⟨hfree, hst⟩ := add_url_ok h
  refine ⟨generate_qr env (normalizeUrl long_url) a, hst,
    generate_qr_ne_empty henv _ _, ?_⟩
  have hfetch : fetch_one st a =
      some ⟨normalizeUrl long_url, a, generate_qr env (normalizeUrl long_url) a⟩ := by
    rw [hst]
    exact fetch_one_last hfree rfl
  unfold get_url
  rw [if_pos rfl, hfetch]

/-- Claim C2 witness: a concrete successful create followed by a
resolve of the returned alias. -/
theorem claim_C2_witness :
    ∃ qr,
      [⟨"https://example.com", "aaaa00", "https://pub.supabase.co/aaaa00.png"⟩] =
          id ([] : Store) ++ [⟨normalizeUrl "example.com", "aaaa00", qr⟩] ∧
        qr ≠ "" ∧
        get_url true
            [⟨"https://example.com", "aaaa00",
              "https://pub.supabase.co/aaaa00.png"⟩] "aaaa00" =
          .ok ⟨normalizeUrl "example.com", "aaaa00", qr⟩ :=
  claim_C2 (genStream rng0) env0 id [] "example.com" none 1 "aaaa00"
    [⟨"https://example.com", "aaaa00", "https://pub.supabase.co/aaaa00.png"⟩]
    (fun f => append_ne_empty_left f (by decide)) rfl

/-- Claim C5: on any artifact failure — encode error, upload exception
(store unreachable), or an unrecognized upload response — the QR
producer returns the deterministic placeholder reference embedding the
alias instead of raising; and the caller-visible outcome of create (its
success and returned alias) does not depend on the artifact environment
at all, so create still succeeds whenever it otherwise would. -/
theorem claim_C5 :
    (∀ (env : QrEnv) (long_url al : String),
      env.encodeOk = false ∨ env.uploadRaises = true ∨
          env.uploadHasPath = false →
      generate_qr env long_url al = placeholder al ∧
        placeholder al = "https://via.placeholder.com/150?text=" ++ al) ∧
    (∀ (gen : Nat → String) (concurrent : Store → Store) (store : Store)
        (long_url : String) (custom : Option String) (fuel : Nat)
        (env₁ env₂ : QrEnv),
      resultAlias (add_url gen env₁ concurrent store long_url custom fuel) =
        resultAlias (add_url gen env₂ concurrent store long_url custom fuel)) := by
  constructor
  · intro env long_url al hfail
    refine ⟨?_, rfl⟩
    rcases hfail with h | h | h <;>
      cases henc : env.encodeOk <;>
      cases hup : env.uploadRaises <;>
      cases hpath : env.uploadHasPath <;>
      simp_all [generate_qr, upload_to_supabase]
  · intro gen concurrent store long_url custom fuel env₁ env₂
    exact resultAlias_env_eq gen concurrent store long_url custom fuel env₁ env₂

/-- Claim C5 witness: a concrete failing upload yields the placeholder
embedding the alias, and a concrete create under that failing
environment still succeeds with the same alias as under a healthy
one. -/
theorem claim_C5_witness :
    (generate_qr envFail "https://w.com" "abcd12" = placeholder "abcd12" ∧
      placeholder "abcd12" =
        "https://via.placeholder.com/150?text=" ++ "abcd12") ∧
    resultAlias (add_url (genStream rng0) envFail id [] "w.com" none 3) =
      resultAlias (add_url (genStream rng0) env0 id [] "w.com" none 3) :=
  ⟨claim_C5.1 envFail "https://w.com" "abcd12" (Or.inr (Or.inl rfl)),
    claim_C5.2 (genStream rng0) id [] "w.com" none 3 envFail env0⟩

end QuickPath
